import Mathlib

/-!
Verification development for the resilient external-integration client and the
tag-driven automation rule engine of the ShipMaster Pro repository.

Each definition is a shallow embedding of a source function:
  - error classification (`classifyError`), auto-fix strategies and the
    retry/backoff loop (`retryWithBackoff`) from the robust Supabase manager;
  - the `CircuitBreaker` class;
  - `BaseApiClient.checkRateLimit` (sliding-window rate limiter);
  - `TaggingService.applyTags` / `validateExclusiveCollections`;
  - the automation-rule instance methods `canExecute`, `evaluateConditions`,
    `recordExecution`.

JavaScript wall-clock reads (`Date.now()`, `new Date()`) are modelled as
explicit time parameters; nondeterministic jitter (`Math.random()*1000`) as an
explicit stream of jitter values; asynchronous external outcomes (the supplied
operation, the credential-refresh collaborator) as explicit outcome streams.
Machine numbers are modelled as `Nat`/`Int`/`Rat` as appropriate.
-/

/-! ## JavaScript regular-expression matching, specialised to the patterns
    used by `classifyError`.  A JS `.` matches any character except a line
    terminator; the `i` flag is modelled by lower-casing both sides. -/

/-- Lower-case an ASCII character (model of the regex `i` flag). -/
def lowerChar (c : Char) : Char :=
  if 'A' ≤ c ∧ c ≤ 'Z' then Char.ofNat (c.toNat + 32) else c

/-- Lower-case a character list. -/
def lowerStr (s : List Char) : List Char := s.map lowerChar

/-- Characters matched by an unflagged JS regex dot: anything but a line
    terminator. -/
def dotChar (c : Char) : Bool := c != '\n' && c != '\r'

/-- Match a literal sequence `p` at the head of `s`, then continue with `k`. -/
def litThen : List Char → (List Char → Bool) → List Char → Bool
  | [], k, s => k s
  | _ :: _, _, [] => false
  | c :: p, k, d :: s => c == d && litThen p k s

/-- Match `.?` (zero or one arbitrary non-terminator character), then
    continue with `k`. -/
def optThen (k : List Char → Bool) : List Char → Bool
  | [] => k []
  | c :: s => k (c :: s) || (dotChar c && k s)

/-- Match `.*` (any number of non-terminator characters), then continue
    with `k`. -/
def starThen (k : List Char → Bool) : List Char → Bool
  | [] => k []
  | c :: s => k (c :: s) || (dotChar c && starThen k s)

/-- Unanchored search: try the sub-pattern `p` at every position of the
    input (a JS `RegExp.test`). -/
def scanFor (p : List Char → Bool) : List Char → Bool
  | [] => p []
  | c :: s => p (c :: s) || scanFor p s

/-- Trivial continuation: accept the rest of the input. -/
def endP : List Char → Bool := fun _ => true

/-- Test for the alternative `lit`. -/
def hasLit (p s : List Char) : Bool := scanFor (litThen p endP) s

/-- Test for an alternative of the shape `a.?b`. -/
def hasSeqOpt (a b s : List Char) : Bool :=
  scanFor (litThen a (optThen (litThen b endP))) s

/-- Test for an alternative of the shape `a.?b.?c`. -/
def hasSeqOpt3 (a b c s : List Char) : Bool :=
  scanFor (litThen a (optThen (litThen b (optThen (litThen c endP))))) s

/-- Test for an alternative of the shape `a.*b`. -/
def hasSeqStar (a b s : List Char) : Bool :=
  scanFor (litThen a (starThen (litThen b endP))) s

/-! ## Error classification (`classifyError`) -/

/-- Closed taxonomy of error kinds returned by `classifyError`. -/
inductive ErrType where
  | AUTH_EXPIRED
  | RATE_LIMITED
  | TEMPORARY_NETWORK
  | SERVICE_DOWN
  | DATA_VALIDATION
  | NOT_FOUND
  | PERMISSION_DENIED
  | UNKNOWN_ERROR
deriving DecidableEq, Fintype

/-- Failure signal: a JS `Error`-like value.  `message` is the `.message`
    property, `str` the `.toString()` rendering used when `message` is the
    empty string (falsy), `code` the `.code` property — the string
    `"undefined"` when absent, because `RegExp.test` stringifies its
    argument. -/
structure JsError where
  message : String
  str : String := ""
  code : String := "undefined"
deriving DecidableEq

/-- Model of `const errorString = error.message || error.toString()`. -/
def errorString (e : JsError) : String :=
  if e.message.isEmpty then e.str else e.message

/-- The regex associated with each error kind in `classifyError`, applied to
    a (lower-cased) character list.  `UNKNOWN_ERROR` has no pattern. -/
def patternMatchStr : ErrType → List Char → Bool
  | .AUTH_EXPIRED, s =>
      hasLit "401".toList s || hasLit "unauthorized".toList s ||
      hasSeqStar "token".toList "expired".toList s ||
      hasSeqStar "jwt".toList "expired".toList s
  | .RATE_LIMITED, s =>
      hasLit "429".toList s || hasSeqOpt "rate".toList "limit".toList s ||
      hasSeqOpt3 "too".toList "many".toList "requests".toList s
  | .TEMPORARY_NETWORK, s =>
      hasLit "timeout".toList s || hasLit "econnreset".toList s ||
      hasLit "network".toList s || hasLit "etimedout".toList s ||
      hasLit "enotfound".toList s
  | .SERVICE_DOWN, s =>
      hasLit "503".toList s ||
      hasSeqOpt "service".toList "unavailable".toList s ||
      hasLit "502".toList s || hasLit "504".toList s
  | .DATA_VALIDATION, s =>
      hasLit "400".toList s || hasSeqOpt "bad".toList "request".toList s ||
      hasLit "validation".toList s || hasLit "invalid".toList s
  | .NOT_FOUND, s =>
      hasLit "404".toList s || hasSeqOpt "not".toList "found".toList s
  | .PERMISSION_DENIED, s =>
      hasLit "403".toList s || hasLit "forbidden".toList s ||
      hasSeqStar "permission".toList "denied".toList s
  | .UNKNOWN_ERROR, _ => false

/-- Model of `pattern.test(errorString) || pattern.test(error.code)`. -/
def patternTest (t : ErrType) (e : JsError) : Bool :=
  patternMatchStr t (lowerStr (errorString e).toList) ||
  patternMatchStr t (lowerStr e.code.toList)

/-- Insertion order of the `patterns` object in `classifyError`: patterns
    are tried in this order and the first match wins. -/
def classifyOrder : List ErrType :=
  [.AUTH_EXPIRED, .RATE_LIMITED, .TEMPORARY_NETWORK, .SERVICE_DOWN,
   .DATA_VALIDATION, .NOT_FOUND, .PERMISSION_DENIED]

/-- Model of `classifyError`: first matching pattern, else `UNKNOWN_ERROR`. -/
def classifyError (e : JsError) : ErrType :=
  (classifyOrder.find? (fun t => patternTest t e)).getD .UNKNOWN_ERROR

/-- Model of `RobustSupabaseManager.getUserFriendlyError`. -/
def getUserFriendlyError : ErrType → String
  | .AUTH_EXPIRED => "Your session has expired. Please sign in again."
  | .RATE_LIMITED => "Too many requests. Please wait a moment and try again."
  | .TEMPORARY_NETWORK => "Connection issue. Please check your internet and try again."
  | .SERVICE_DOWN => "Service is temporarily unavailable. Please try again later."
  | .DATA_VALIDATION => "Invalid data provided. Please check your input."
  | .NOT_FOUND => "The requested resource was not found."
  | .PERMISSION_DENIED => "You don\x27t have permission to perform this action."
  | .UNKNOWN_ERROR => "An unexpected error occurred. Please try again."

/-! ## CircuitBreaker -/

/-- The three circuit-breaker states. -/
inductive CBState where
  | CLOSED
  | OPEN
  | HALF_OPEN
deriving DecidableEq

/-- State of the `CircuitBreaker` class.  Times are `Date.now()`-style
    millisecond timestamps. -/
structure CircuitBreaker where
  failureCount : Nat := 0
  threshold : Nat := 5
  timeout : Nat := 60000
  state : CBState := .CLOSED
  lastFailureTime : Option Nat := none
deriving DecidableEq

/-- Outcome of a `CircuitBreaker.execute` call: the transport result, or the
    circuit-open rejection thrown without running the transport. -/
inductive CBOutcome (ε α : Type) where
  | ok (a : α)
  | err (e : ε)
  | circuitOpen
deriving DecidableEq

/-- Model of `CircuitBreaker.onSuccess`. -/
def CircuitBreaker.onSuccess (cb : CircuitBreaker) : CircuitBreaker :=
  { cb with failureCount := 0, state := .CLOSED }

/-- Model of `CircuitBreaker.onFailure` at time `now`. -/
def CircuitBreaker.onFailure (cb : CircuitBreaker) (now : Nat) : CircuitBreaker :=
  let fc := cb.failureCount + 1
  { cb with
    failureCount := fc
    lastFailureTime := some now
    state := if cb.threshold ≤ fc then .OPEN else cb.state }

/-- Model of `CircuitBreaker.execute` at time `now` with transport outcome
    `fn`.  The returned `Bool` records whether the transport was invoked.
    The single `now` stands for both the `Date.now()` of the open-state check
    and the `Date.now()` recorded by `onFailure` (the call is modelled as
    instantaneous).  A `null` `lastFailureTime` coerces to `0` in the
    JavaScript subtraction, modelled by `getD 0`. -/
def CircuitBreaker.execute {ε α : Type} (cb : CircuitBreaker) (now : Nat)
    (fn : Except ε α) : CircuitBreaker × CBOutcome ε α × Bool :=
  if cb.state = .OPEN ∧ ¬ (cb.timeout < now - cb.lastFailureTime.getD 0) then
    (cb, .circuitOpen, false)
  else
    let cb1 := if cb.state = .OPEN then { cb with state := .HALF_OPEN } else cb
    match fn with
    | .ok a => (cb1.onSuccess, .ok a, true)
    | .error e => (cb1.onFailure now, .err e, true)

/-- Run a sequence of failing call-throughs at the given times; the `Bool`
    reports whether every call invoked the transport. -/
def runFailures {ε : Type} (cb : CircuitBreaker) (e : ε) :
    List Nat → CircuitBreaker × Bool
  | [] => (cb, true)
  | t :: ts =>
    let step := cb.execute t (Except.error e : Except ε Unit)
    let rest := runFailures step.1 e ts
    (rest.1, step.2.2 && rest.2)

/-! ## Retry with exponential backoff (`retryWithBackoff`)

The supplied function is stateful (`fn : σ → Except ε α × σ`) because in the
source it is a closure over mutable effects (operation invocations,
credential refreshes); the jitter stream `jit i` models the
`Math.random() * 1000` drawn before the wait that follows failed attempt
`i`. -/

deriving instance DecidableEq for Except

/-- Observable outcome of a `retryWithBackoff` run: the returned or thrown
    result (`none` models the `undefined` return of a zero-iteration loop),
    the backoff delays waited in order, the number of invocations of the
    supplied function, and the final state. -/
structure RetryOut (σ ε α : Type) where
  result : Option (Except ε α)
  delays : List Nat
  calls : Nat
  st : σ
deriving DecidableEq

/-- Loop of `retryWithBackoff` from attempt index `i` with
    `fuel = maxRetries - i` iterations remaining. -/
def retryGo {σ ε α : Type} (fn : σ → Except ε α × σ) (base : Nat)
    (jit : Nat → Nat) : Nat → Nat → σ → RetryOut σ ε α
  | _, 0, s => ⟨none, [], 0, s⟩
  | i, fuel + 1, s =>
    let step := fn s
    match step.1 with
    | .ok a => ⟨some (.ok a), [], 1, step.2⟩
    | .error e =>
      if fuel = 0 then ⟨some (.error e), [], 1, step.2⟩
      else
        let d := base * 2 ^ i + jit i
        let o := retryGo fn base jit (i + 1) fuel step.2
        ⟨o.result, d :: o.delays, o.calls + 1, o.st⟩

/-- Model of `retryWithBackoff(fn, maxRetries, baseDelay)`. -/
def retryWithBackoff {σ ε α : Type} (fn : σ → Except ε α × σ)
    (maxRetries base : Nat) (jit : Nat → Nat) (s : σ) : RetryOut σ ε α :=
  retryGo fn base jit 0 maxRetries s

/-- Retry run over a plain stream of outcomes (`outs n` is the result of the
    (n+1)-st invocation), the state being the invocation counter. -/
def retryCounted {ε α : Type} (outs : Nat → Except ε α)
    (maxRetries base : Nat) (jit : Nat → Nat) : RetryOut Nat ε α :=
  retryWithBackoff (fun n => (outs n, n + 1)) maxRetries base jit 0

/-! ## Auto-fix strategies and the resilient execution wrapper -/

/-- The `fixed` flag reported by `autoFixStrategies[errorType]`, or `none`
    when no strategy exists for the kind.  `AUTH_EXPIRED` invokes the
    credential-refresh collaborator, whose outcome is the `refreshOk`
    argument; `RATE_LIMITED` sleeps for the retry-after period and reports
    fixed; `TEMPORARY_NETWORK` reports not fixed (relying on the retry
    mechanism). -/
def autoFixFixed : ErrType → Bool → Option Bool
  | .AUTH_EXPIRED, refreshOk => some refreshOk
  | .RATE_LIMITED, _ => some true
  | .TEMPORARY_NETWORK, _ => some false
  | _, _ => none

/-- Counters threaded through one `executeWithResilience` call chain:
    invocations of the supplied `operation` and of the credential-refresh
    collaborator. -/
structure RunSt where
  opCalls : Nat := 0
  refreshCalls : Nat := 0
deriving DecidableEq

/-- One attempt of the operation inside `executeWithResilience` (the closure
    handed to `retryWithBackoff`): run the operation; on failure classify
    the error and, when an auto-fix strategy exists and reports fixed, run
    the operation once more, a success being flagged `autoFixed`; otherwise
    rethrow.  `ops n` is the outcome of the (n+1)-st operation invocation
    and `refreshOk n` of the (n+1)-st credential refresh. -/
def attemptOnce {α : Type} (ops : Nat → Except JsError α)
    (refreshOk : Nat → Bool) (s : RunSt) : Except JsError (α × Bool) × RunSt :=
  let r1 := ops s.opCalls
  let s1 : RunSt := { s with opCalls := s.opCalls + 1 }
  match r1 with
  | .ok v => (.ok (v, false), s1)
  | .error e =>
    let etype := classifyError e
    let s2 : RunSt :=
      if etype = .AUTH_EXPIRED then { s1 with refreshCalls := s1.refreshCalls + 1 } else s1
    match autoFixFixed etype (refreshOk s1.refreshCalls) with
    | none => (.error e, s2)
    | some false => (.error e, s2)
    | some true =>
      let r2 := ops s2.opCalls
      let s3 : RunSt := { s2 with opCalls := s2.opCalls + 1 }
      match r2 with
      | .ok v => (.ok (v, true), s3)
      | .error e2 => (.error e2, s3)

/-- Failure details of an `executeWithResilience` result. -/
structure ExecError where
  message : String
  etype : ErrType
  userFriendlyMessage : String
deriving DecidableEq

/-- Metadata of an `executeWithResilience` result. -/
structure ExecMeta where
  duration : Nat
  autoFixed : Bool := false
deriving DecidableEq

/-- Result object returned by `executeWithResilience`. -/
structure ExecResult (α : Type) where
  success : Bool
  data : Option α := none
  error : Option ExecError := none
  metadata : ExecMeta
deriving DecidableEq

/-- The failure branch of `executeWithResilience` (its outer `catch`). -/
def execFailure {α : Type} (e : JsError) (duration : Nat) : ExecResult α :=
  let t := classifyError e
  { success := false
    error := some { message := e.message, etype := t,
                    userFriendlyMessage := getUserFriendlyError t }
    metadata := { duration := duration } }

/-- The error thrown by `CircuitBreaker.execute` while open. -/
def circuitOpenError : JsError :=
  { message := "Circuit breaker is OPEN - Service temporarily unavailable" }

/-- The outcome a finished retry run presents to the circuit breaker: the
    returned value, the rethrown last error, or the `undefined` of a
    zero-iteration loop. -/
def retryOutcome {α : Type} (run : RetryOut RunSt JsError (α × Bool)) :
    Except JsError (Option (α × Bool)) :=
  match run.result with
  | some (.ok p) => .ok (some p)
  | some (.error e) => .error e
  | none => .ok none

/-- Model of `RobustSupabaseManager.executeWithResilience`: the circuit
    breaker around the retry loop around `attemptOnce`, the outer try/catch
    turning every throw into a `success := false` result.  The only throw
    that escapes is the missing-client guard.  `startTime`/`endTime` are
    the `Date.now()` readings at entry and at result construction;
    `duration = endTime - startTime`.  Returns the updated breaker, the
    result object, and the invocation counters. -/
def executeWithResilience {α : Type} (clientExists : Bool)
    (cb : CircuitBreaker) (ops : Nat → Except JsError α)
    (refreshOk : Nat → Bool) (maxRetries baseDelay : Nat) (jit : Nat → Nat)
    (startTime endTime : Nat) :
    Except JsError (CircuitBreaker × ExecResult α × RunSt) :=
  if !clientExists then
    .error { message := "Supabase client not initialized" }
  else
    let duration := endTime - startTime
    let run := retryWithBackoff (attemptOnce ops refreshOk) maxRetries baseDelay jit {}
    let step := cb.execute startTime (retryOutcome run)
    match step.2.1 with
    | .circuitOpen =>
      -- the circuit rejected: the retry loop never ran, no operation call
      .ok (step.1, execFailure circuitOpenError duration, {})
    | .ok d =>
      .ok (step.1,
        { success := true, data := d.map Prod.fst,
          metadata := { duration := duration,
                        autoFixed := (d.map Prod.snd).getD false } }, run.st)
    | .err e =>
      .ok (step.1, execFailure e duration, run.st)

/-! ## Sliding-window rate limiter (`BaseApiClient.checkRateLimit`) -/

/-- Model of `BaseApiClient.checkRateLimit` for one admission request.
    `requests` is the stored timestamp list, `now` the `Date.now()` at
    entry, `limit` the integration's `rateLimits.requestsPerMinute`.
    Returns the stored list after the call and the admission time (the time
    at which the method returns: `now` plus the wait, if any).  Note the
    source pushes the pre-wait `now` onto the list and does not re-check
    after waiting. -/
def checkRateLimit (requests : List Nat) (now limit : Nat) : List Nat × Nat :=
  let recent := requests.filter (fun t => now - t < 60000)
  if limit ≤ recent.length then
    let waitTime := 60000 - (now - recent.headD 0)
    (recent ++ [now], now + waitTime)
  else
    (recent ++ [now], now)

/-- Sequential trace of admission requests: fold `checkRateLimit` over the
    arrival times, collecting the admission times. -/
def runRateLimiter (limit : Nat) (arrivals : List Nat) : List Nat × List Nat :=
  arrivals.foldl
    (fun acc a =>
      let step := checkRateLimit acc.1 a limit
      (step.1, acc.2 ++ [step.2]))
    ([], [])

/-! ## Tagging service: exclusive collections -/

/-- An exclusive tag collection as used by `validateExclusiveCollections`:
    its name and the (stringified) ids of its member tags. -/
structure TagCollection where
  name : String
  tags : List String
deriving DecidableEq

/-- Model of `TaggingService.validateExclusiveCollections(currentTags,
    newTags)`.  `exclusives` is the result of the
    `TagCollection.findExclusive()` query (the active exclusive
    collections); tag ids are compared by their string form. -/
def validateExclusiveCollections (exclusives : List TagCollection)
    (currentTags newTags : List String) : Except String Unit :=
  match exclusives with
  | [] => .ok ()
  | c :: rest =>
    let currentFromCollection := currentTags.filter (fun t => c.tags.contains t)
    let newFromCollection := newTags.filter (fun t => c.tags.contains t)
    if 0 < newFromCollection.length then
      if 0 < currentFromCollection.length then
        .error ("Cannot add multiple tags from exclusive collection: " ++ c.name)
      else if 1 < newFromCollection.length then
        .error ("Can only select one tag from exclusive collection: " ++ c.name)
      else
        validateExclusiveCollections rest currentTags newTags
    else
      validateExclusiveCollections rest currentTags newTags

/-- Model of `TaggingService.applyTags(entityType, entityId, tagIds)` on one
    entity.  `entityFound` and `allTagsFound` model the `getEntity` and
    `Tag.find` existence guards; `entityTags` is the entity's current tag
    list.  On success the returned list is the entity's tag list after the
    push of the not-already-present tag ids (the method never removes a
    tag). -/
def applyTags (entityType : String) (entityFound allTagsFound : Bool)
    (exclusives : List TagCollection) (entityTags tagIds : List String) :
    Except String (List String) :=
  if !entityFound then .error (entityType ++ " not found")
  else if !allTagsFound then .error "One or more tags not found"
  else
    match validateExclusiveCollections exclusives entityTags tagIds with
    | .error msg => .error msg
    | .ok _ =>
      let newTags := tagIds.filter (fun tagId => ! entityTags.any (fun t => t == tagId))
      .ok (entityTags ++ newTags)

/-! ## Automation rules: data model and instance methods -/

/-- One entry of a rule's execution history. -/
structure ExecRecord where
  orderId : String
  executedAt : Nat
  success : Bool
  duration : Nat := 0
  error : Option String := none
  actionsPerformed : List String := []
deriving DecidableEq

/-- The `limits` object of a rule.  `none` models an absent field. -/
structure RuleLimits where
  maxExecutions : Option Nat := none
  maxPerDay : Option Nat := none
  cooldownMinutes : Option Nat := none
  maxPerOrder : Option Nat := none
deriving DecidableEq

/-- The `stats` object of a rule.  The running average is kept exact as a
    rational. -/
structure RuleStats where
  totalExecutions : Nat := 0
  successfulExecutions : Nat := 0
  failedExecutions : Nat := 0
  ordersAffected : Nat := 0
  lastExecuted : Option Nat := none
  lastSuccess : Option Nat := none
  lastError : Option String := none
  avgExecutionTime : Rat := 0
deriving DecidableEq

/-- Numeric range condition (`{min, max}`). -/
structure RangeCond where
  min : Option Int := none
  max : Option Int := none
deriving DecidableEq

/-- Destination condition. -/
structure DestCond where
  countries : List String := []
  states : List String := []
  zips : List String := []
  residential : Option Bool := none
deriving DecidableEq

/-- Tag condition. -/
structure TagsCond where
  hasAll : List String := []
  hasAny : List String := []
  hasNone : List String := []
deriving DecidableEq

/-- Hour window, the `{start, end}` strings of the source (`end` is a Lean
    keyword, hence `stop`). -/
structure HoursCond where
  start : String
  stop : String
deriving DecidableEq

/-- Time-of-day / day-of-week condition. -/
structure TimeRangeCond where
  days : List String := []
  hours : Option HoursCond := none
deriving DecidableEq

/-- The `trigger.conditions` object of a rule. -/
structure Conditions where
  orderValue : Option RangeCond := none
  weight : Option RangeCond := none
  itemCount : Option RangeCond := none
  destination : Option DestCond := none
  tags : Option TagsCond := none
  timeRange : Option TimeRangeCond := none
deriving DecidableEq

/-- An automation rule (the fields the instance methods read and write). -/
structure Rule where
  enabled : Bool := true
  limits : RuleLimits := {}
  stats : RuleStats := {}
  history : List ExecRecord := []
  conditions : Option Conditions := none
deriving DecidableEq

/-- Order snapshot (the fields `evaluateConditions` reads; JS numbers as
    `Int`, field presence as `Option`). -/
structure Address where
  country : String := ""
  state : String := ""
  zip : String := ""
  residential : Bool := false
deriving DecidableEq

/-- Read-only order snapshot. -/
structure OrderSnapshot where
  id : String := ""
  total : Int := 0
  totalWeight : Option Int := none
  itemCount : Option Int := none
  shippingAddress : Address := {}
  tags : List String := []
deriving DecidableEq

/-- The wall-clock readings `new Date()` yields inside `evaluateConditions`:
    day of week (0 = Sunday) and hour of day. -/
structure Clock where
  dayOfWeek : Nat := 0
  hour : Nat := 0
deriving DecidableEq

/-- JavaScript truthiness of an optional numeric field (`undefined` and `0`
    are falsy). -/
def natTruthy : Option Nat → Bool
  | none => false
  | some n => n != 0

/-- JavaScript truthiness of an optional numeric field, `Int` version. -/
def intTruthy : Option Int → Bool
  | none => false
  | some v => v != 0

/-- Milliseconds per day. -/
def msPerDay : Nat := 86400000

/-- Model of `today.setHours(0, 0, 0, 0)`: midnight of the day containing
    `now`. -/
def startOfDay (now : Nat) : Nat := now - now % msPerDay

/-- Model of the rule instance method `canExecute(order)` at wall-clock time
    `now` for the order with id `orderId`. -/
def canExecute (r : Rule) (orderId : String) (now : Nat) : Bool :=
  if !r.enabled then false
  else if natTruthy r.limits.maxExecutions &&
      decide (r.limits.maxExecutions.getD 0 ≤ r.stats.totalExecutions) then false
  else if natTruthy r.limits.maxPerDay &&
      decide (r.limits.maxPerDay.getD 0 ≤
        (r.history.filter
          (fun h => decide (startOfDay now ≤ h.executedAt) && h.success)).length) then false
  else if natTruthy r.limits.cooldownMinutes && r.stats.lastExecuted.isSome &&
      decide (now < r.stats.lastExecuted.getD 0 +
        r.limits.cooldownMinutes.getD 0 * 60000) then false
  else if natTruthy r.limits.maxPerOrder &&
      decide (r.limits.maxPerOrder.getD 0 ≤
        (r.history.filter (fun h => h.orderId == orderId && h.success)).length) then false
  else true

/-- The `dayNames` array of `evaluateConditions`. -/
def dayNames : List String :=
  ["sunday", "monday", "tuesday", "wednesday", "thursday", "friday", "saturday"]

/-- Characters of `s` before the first colon (`s.split(':')[0]`). -/
def splitColonHead (s : String) : String :=
  String.mk (s.toList.takeWhile (fun c => c ≠ ':'))

/-- Leading decimal digits of `s` as a number (`parseInt` on a well-formed
    hour string). -/
def parseLeadingNat (s : String) : Nat :=
  (s.toList.takeWhile Char.isDigit).foldl (fun a c => 10 * a + (c.toNat - 48)) 0

/-- Model of the rule instance method `evaluateConditions(order)`; `clock`
    is the `new Date()` reading taken during the evaluation.  Each
    early-`return false` of the source is a negated conjunct. -/
def evaluateConditions (r : Rule) (order : OrderSnapshot) (clock : Clock) : Bool :=
  match r.conditions with
  | none => true
  | some conds =>
    (match conds.orderValue with
     | none => true
     | some rc =>
       !(intTruthy rc.min && decide (order.total < rc.min.getD 0)) &&
       !(intTruthy rc.max && decide (rc.max.getD 0 < order.total))) &&
    (match conds.weight with
     | none => true
     | some rc =>
       let w := order.totalWeight.getD 0
       !(intTruthy rc.min && decide (w < rc.min.getD 0)) &&
       !(intTruthy rc.max && decide (rc.max.getD 0 < w))) &&
    (match conds.itemCount with
     | none => true
     | some rc =>
       let n := order.itemCount.getD 0
       !(intTruthy rc.min && decide (n < rc.min.getD 0)) &&
       !(intTruthy rc.max && decide (rc.max.getD 0 < n))) &&
    (match conds.destination with
     | none => true
     | some d =>
       let addr := order.shippingAddress
       !(d.countries.length != 0 && !(d.countries.contains addr.country)) &&
       !(d.states.length != 0 && !(d.states.contains addr.state)) &&
       !(d.zips.length != 0 && !(d.zips.contains addr.zip)) &&
       !(d.residential.isSome && addr.residential != d.residential.getD false)) &&
    (match conds.tags with
     | none => true
     | some tc =>
       !(tc.hasAll.length != 0 && !(tc.hasAll.all (fun t => order.tags.contains t))) &&
       !(tc.hasAny.length != 0 && !(tc.hasAny.any (fun t => order.tags.contains t))) &&
       !(tc.hasNone.length != 0 && (tc.hasNone.any (fun t => order.tags.contains t)))) &&
    (match conds.timeRange with
     | none => true
     | some tr =>
       !(tr.days.length != 0 && !(tr.days.contains (dayNames.getD clock.dayOfWeek ""))) &&
       (match tr.hours with
        | none => true
        | some hrs =>
          let startHour := parseLeadingNat (splitColonHead hrs.start)
          let endHour := parseLeadingNat (splitColonHead hrs.stop)
          !(decide (clock.hour < startHour) || decide (endHour ≤ clock.hour))))

/-- Model of the rule instance method `recordExecution(orderId, success,
    duration, error, actionsPerformed)` at wall-clock time `now`: update the
    aggregate stats and append to the history capped at the last 100 entries
    (`slice(-100)`); the Supabase round trip is modelled as the in-memory
    update it persists. -/
def recordExecution (r : Rule) (orderId : String) (success : Bool)
    (duration : Nat) (error : Option String) (actionsPerformed : List String)
    (now : Nat) : Rule :=
  let prevTotal := r.stats.totalExecutions
  let newTotal := prevTotal + 1
  let stats1 : RuleStats :=
    { r.stats with
      totalExecutions := newTotal
      successfulExecutions :=
        if success then r.stats.successfulExecutions + 1
        else r.stats.successfulExecutions
      failedExecutions :=
        if success then r.stats.failedExecutions
        else r.stats.failedExecutions + 1
      lastExecuted := some now
      ordersAffected :=
        if success then r.stats.ordersAffected + 1 else r.stats.ordersAffected }
  let stats2 :=
    if success then { stats1 with lastSuccess := some now }
    else { stats1 with lastError := error }
  let stats3 :=
    if duration != 0 then
      let prevAvg := r.stats.avgExecutionTime
      let prevCount : Nat := prevTotal - 1
      { stats2 with
        avgExecutionTime :=
          (prevAvg * (prevCount : Rat) + (duration : Rat)) / (newTotal : Rat) }
    else stats2
  let entry : ExecRecord :=
    { orderId := orderId, executedAt := now, success := success,
      duration := duration, error := error, actionsPerformed := actionsPerformed }
  let appended := r.history ++ [entry]
  { r with stats := stats3, history := appended.drop (appended.length - 100) }

/-- Modelled from the spec: the RuleEngine driver of spec section 4.9 — the
    loop that gates each rule through `canExecute`, evaluates its trigger
    conditions, executes its actions and records an `ExecutionRecord` — is
    not among the sources under src/ (only the rule instance methods it
    calls are).  Per the spec, a rule failing the `canExecute` gate or the
    condition check is skipped without recording anything; otherwise the
    actions run (their outcome supplied here as `actionSuccess`,
    `actionDuration`, `actionError`, `actionsPerformed`) and the execution
    is recorded.  Returns the updated rule and whether the actions were
    executed. -/
def ruleEngineStep (r : Rule) (order : OrderSnapshot) (clock : Clock)
    (now : Nat) (actionSuccess : Bool) (actionDuration : Nat)
    (actionError : Option String) (actionsPerformed : List String) :
    Rule × Bool :=
  if canExecute r order.id now then
    if evaluateConditions r order clock then
      (recordExecution r order.id actionSuccess actionDuration actionError
        actionsPerformed now, true)
    else (r, false)
  else (r, false)

/-- The per-attempt state update when the operation always fails with a
    non-auto-fixable error: only the operation counter advances. -/
def incOp (s : RunSt) : RunSt := { s with opCalls := s.opCalls + 1 }

/-- The backoff delay of attempt `i`. -/
def backoffDelay (base : Nat) (jit : Nat → Nat) (i : Nat) : Nat :=
  base * 2 ^ i + jit i

/-- Last element of a list of timestamps (0 for the empty list). -/
def lastTime : List Nat → Nat
  | [] => 0
  | [t] => t
  | _ :: t2 :: ts => lastTime (t2 :: ts)

/-! ## Helper lemmas on the retry loop -/

theorem incOp_iterate (n : Nat) (s : RunSt) :
    incOp^[n] s = { s with opCalls := s.opCalls + n } := by
  induction n generalizing s with
  | zero => rfl
  | succ n ih =>
    rw [Function.iterate_succ_apply, ih]
    simp [incOp, Nat.add_assoc, Nat.add_comm 1 n]

theorem retryGo_zero {σ ε α : Type} (fn : σ → Except ε α × σ) (base : Nat)
    (jit : Nat → Nat) (i : Nat) (s : σ) :
    retryGo fn base jit i 0 s = ⟨none, [], 0, s⟩ := rfl

theorem retryGo_succ {σ ε α : Type} (fn : σ → Except ε α × σ) (base : Nat)
    (jit : Nat → Nat) (i fuel : Nat) (s : σ) :
    retryGo fn base jit i (fuel + 1) s =
      match (fn s).1 with
      | .ok a => ⟨some (.ok a), [], 1, (fn s).2⟩
      | .error e =>
        if fuel = 0 then ⟨some (.error e), [], 1, (fn s).2⟩
        else
          let o := retryGo fn base jit (i + 1) fuel (fn s).2
          ⟨o.result, (base * 2 ^ i + jit i) :: o.delays, o.calls + 1, o.st⟩ := rfl

/-- A run whose every attempt fails with the same error `e` and updates the
    state by `g`: the loop performs exactly `fuel` invocations, waits the
    scheduled backoff delays, and rethrows the error. -/
theorem retryGo_allFail {σ ε α : Type} (fn : σ → Except ε α × σ) (g : σ → σ)
    (e : ε) (base : Nat) (jit : Nat → Nat)
    (hfn : ∀ s, fn s = (.error e, g s)) :
    ∀ (n : Nat) (i : Nat) (s : σ),
      retryGo fn base jit i (n + 1) s =
        ⟨some (.error e), (List.range' i n).map (backoffDelay base jit),
         n + 1, g^[n + 1] s⟩ := by
  intro n
  induction n with
  | zero =>
    intro i s
    rw [retryGo_succ, hfn s]
    simp
  | succ n ih =>
    intro i s
    rw [retryGo_succ, hfn s]
    simp only [Nat.succ_ne_zero, if_false]
    rw [ih (i + 1) (g s)]
    have hiter : g^[n + 1 + 1] s = g^[n + 1] (g s) := Function.iterate_succ_apply g (n + 1) s
    simp [List.range'_succ, backoffDelay, hiter]

/-- The loop never invokes the supplied function more than `fuel` times. -/
theorem retryGo_calls_le {σ ε α : Type} (fn : σ → Except ε α × σ)
    (base : Nat) (jit : Nat → Nat) :
    ∀ (fuel i : Nat) (s : σ), (retryGo fn base jit i fuel s).calls ≤ fuel := by
  intro fuel
  induction fuel with
  | zero => intro i s; rw [retryGo_zero]
  | succ fuel ih =>
    intro i s
    rw [retryGo_succ]
    rcases h : (fn s).1 with e | a
    · by_cases hf : fuel = 0
      · simp [hf]
      · simp only [hf, if_false]
        exact Nat.succ_le_succ (ih (i + 1) (fn s).2)
    · simp

/-- The delays of any run are the scheduled backoff delays of an initial
    segment of consecutive attempt indices. -/
theorem retryGo_delays_shape {σ ε α : Type} (fn : σ → Except ε α × σ)
    (base : Nat) (jit : Nat → Nat) :
    ∀ (fuel i : Nat) (s : σ), ∃ k,
      (retryGo fn base jit i fuel s).delays =
        (List.range' i k).map (backoffDelay base jit) := by
  intro fuel
  induction fuel with
  | zero => intro i s; exact ⟨0, by rw [retryGo_zero]; simp⟩
  | succ fuel ih =>
    intro i s
    rw [retryGo_succ]
    rcases h : (fn s).1 with e | a
    · by_cases hf : fuel = 0
      · exact ⟨0, by simp [hf]⟩
      · obtain ⟨k, hk⟩ := ih (i + 1) (fn s).2
        refine ⟨k + 1, ?_⟩
        simp only [hf, if_false]
        simp [hk, List.range'_succ, backoffDelay]
    · exact ⟨0, by simp⟩

/-- Scheduled backoff delays over consecutive attempt indices strictly
    increase as soon as the base delay dominates the jitter bound. -/
theorem chain_lt_backoff (base : Nat) (jit : Nat → Nat) (hb : 1000 ≤ base)
    (hj : ∀ i, jit i < 1000) :
    ∀ (k i : Nat), List.Chain' (· < ·) ((List.range' i k).map (backoffDelay base jit)) := by
  intro k
  induction k with
  | zero => intro i; simp
  | succ k ih =>
    intro i
    rcases k with _ | k
    · simp
    · rw [List.range'_succ, List.map_cons, List.chain'_cons']
      refine ⟨?_, ?_⟩
      · intro y hy
        rw [List.range'_succ, List.map_cons] at hy
        simp only [List.head?_cons, Option.mem_def, Option.some.injEq] at hy
        subst hy
        have h1 : 0 < 2 ^ i := pow_pos (by omega) i
        have h2 : base ≤ base * 2 ^ i := Nat.le_mul_of_pos_right base h1
        have h3 : base * 2 ^ (i + 1) = base * 2 ^ i + base * 2 ^ i := by ring
        have h4 := hj i
        simp only [backoffDelay]
        omega
      · have h5 := ih (i + 1)
        rw [List.range'_succ] at h5
        exact h5

/-- When the error admits no auto-fix strategy, one attempt just re-runs the
    operation and rethrows its error. -/
theorem attemptOnce_noStrategy (e : JsError) (refreshOk : Nat → Bool)
    (hA : classifyError e ≠ .AUTH_EXPIRED) (hR : classifyError e ≠ .RATE_LIMITED)
    (hT : classifyError e ≠ .TEMPORARY_NETWORK) (s : RunSt) :
    attemptOnce (fun _ => (.error e : Except JsError Unit)) refreshOk s =
      (.error e, incOp s) := by
  cases hcl : classifyError e <;>
    simp_all [attemptOnce, autoFixFixed, incOp]

/-- One attempt invokes the credential refresh at most once. -/
theorem attemptOnce_refresh_le {α : Type} (ops : Nat → Except JsError α)
    (refreshOk : Nat → Bool) (s : RunSt) :
    (attemptOnce ops refreshOk s).2.refreshCalls ≤ s.refreshCalls + 1 := by
  unfold attemptOnce
  rcases h : ops s.opCalls with e | v
  · simp only [h]
    cases hcl : classifyError e <;>
      simp only [hcl, autoFixFixed] <;>
      rcases hr : refreshOk s.refreshCalls with _ | _ <;>
      rcases h2 : ops (s.opCalls + 1) with e2 | v2 <;>
      simp_all
  · simp [h]

/-- The refresh counter grows by at most `fuel` over a whole retry run when
    each attempt grows it by at most one. -/
theorem retryGo_refresh_bound {ε α : Type} (fn : RunSt → Except ε α × RunSt)
    (base : Nat) (jit : Nat → Nat)
    (hfn : ∀ s, (fn s).2.refreshCalls ≤ s.refreshCalls + 1) :
    ∀ (fuel i : Nat) (s : RunSt),
      (retryGo fn base jit i fuel s).st.refreshCalls ≤ s.refreshCalls + fuel := by
  intro fuel
  induction fuel with
  | zero => intro i s; rw [retryGo_zero]; exact Nat.le_add_right _ _
  | succ fuel ih =>
    intro i s
    rw [retryGo_succ]
    have h2 := hfn s
    rcases h : (fn s).1 with e | a
    · simp only [h]
      by_cases hf : fuel = 0
      · simp only [if_pos hf]
        show (fn s).2.refreshCalls <= s.refreshCalls + (fuel + 1)
        omega
      · simp only [if_neg hf]
        have h1 := ih (i + 1) (fn s).2
        show (retryGo fn base jit (i + 1) fuel (fn s).2).st.refreshCalls <=
          s.refreshCalls + (fuel + 1)
        omega
    · simp only [h]
      show (fn s).2.refreshCalls <= s.refreshCalls + (fuel + 1)
      omega

/-- A counted run whose every attempt fails: exactly one invocation per
    iteration, the scheduled delays, and the error of the last attempt. -/
theorem retryGo_counted_allFail {ε α : Type} (outs : Nat → Except ε α)
    (errs : Nat → ε) (base : Nat) (jit : Nat → Nat)
    (houts : ∀ n, outs n = .error (errs n)) :
    ∀ (n k i : Nat),
      retryGo (fun m => ((outs m : Except ε α), m + 1)) base jit i (n + 1) k =
        ⟨some (.error (errs (k + n))), (List.range' i n).map (backoffDelay base jit),
         n + 1, k + n + 1⟩ := by
  intro n
  induction n with
  | zero => intro k i; rw [retryGo_succ]; simp [houts k]
  | succ n ih =>
    intro k i
    rw [retryGo_succ]
    simp only [houts k, Nat.succ_ne_zero, if_false]
    rw [ih (k + 1) (i + 1)]
    have h1 : k + 1 + n = k + (n + 1) := by omega
    rw [h1]
    simp [List.range'_succ, backoffDelay]

/-- C6 (amended): `retryWithBackoff` invokes the wrapped function at most
    `maxRetries` times, and its waits are exactly the scheduled
    `baseDelay * 2 ^ i + jitter i` values over consecutive failed attempts
    starting at attempt 0.  When every attempt fails, the function is
    invoked exactly `maxRetries` times, one wait per failed attempt except
    the last, and the last error is propagated.  Consecutive per-attempt
    delays strictly increase whenever `baseDelay` is at least the 1000 ms
    jitter bound — in particular at the default `baseDelay = 1000` — but not
    for every smaller `baseDelay` (the unconditional strict increase of the
    claim fails; see the counterexample). -/
theorem C6_retryWithBackoff_bounds_delays_lastError {ε α : Type}
    (outs : Nat → Except ε α) (errs : Nat → ε) (maxRetries base : Nat)
    (jit : Nat → Nat) (hmr : 1 ≤ maxRetries) (hjit : ∀ i, jit i < 1000) :
    (retryCounted outs maxRetries base jit).calls ≤ maxRetries ∧
    (∃ k, (retryCounted outs maxRetries base jit).delays =
      (List.range' 0 k).map (backoffDelay base jit)) ∧
    ((∀ n, outs n = .error (errs n)) →
      (retryCounted outs maxRetries base jit).result =
        some (.error (errs (maxRetries - 1))) ∧
      (retryCounted outs maxRetries base jit).calls = maxRetries ∧
      (retryCounted outs maxRetries base jit).delays =
        (List.range' 0 (maxRetries - 1)).map (backoffDelay base jit)) ∧
    (1000 ≤ base →
      List.Chain' (· < ·) (retryCounted outs maxRetries base jit).delays) := by
  obtain ⟨m, rfl⟩ : ∃ m, maxRetries = m + 1 := ⟨maxRetries - 1, by omega⟩
  refine ⟨retryGo_calls_le _ base jit (m + 1) 0 0,
    retryGo_delays_shape _ base jit (m + 1) 0 0, ?_, ?_⟩
  · intro hall
    rw [show retryCounted outs (m + 1) base jit =
          retryGo (fun n => (outs n, n + 1)) base jit 0 (m + 1) 0 from rfl,
        retryGo_counted_allFail outs errs base jit hall m 0 0]
    simp
  · intro hbase
    obtain ⟨k, hk⟩ := retryGo_delays_shape (fun n => ((outs n : Except ε α), n + 1))
      base jit (m + 1) 0 0
    rw [show retryCounted outs (m + 1) base jit =
          retryGo (fun n => (outs n, n + 1)) base jit 0 (m + 1) 0 from rfl, hk]
    exact chain_lt_backoff base jit hbase hjit k 0

/-- Witness for C6 at a concrete always-failing run with the default
    parameters `maxRetries = 3`, `baseDelay = 1000`. -/
theorem C6_retryWithBackoff_bounds_witness :
    (retryCounted (fun n => (Except.error n : Except Nat Unit)) 3 1000 (fun _ => 0)).calls ≤ 3 ∧
    (∃ k, (retryCounted (fun n => (Except.error n : Except Nat Unit)) 3 1000 (fun _ => 0)).delays =
      (List.range' 0 k).map (backoffDelay 1000 (fun _ => 0))) ∧
    ((∀ n, (fun n => (Except.error n : Except Nat Unit)) n = .error n) →
      (retryCounted (fun n => (Except.error n : Except Nat Unit)) 3 1000 (fun _ => 0)).result =
        some (.error 2) ∧
      (retryCounted (fun n => (Except.error n : Except Nat Unit)) 3 1000 (fun _ => 0)).calls = 3 ∧
      (retryCounted (fun n => (Except.error n : Except Nat Unit)) 3 1000 (fun _ => 0)).delays =
        (List.range' 0 2).map (backoffDelay 1000 (fun _ => 0))) ∧
    (1000 ≤ 1000 →
      List.Chain' (· < ·)
        (retryCounted (fun n => (Except.error n : Except Nat Unit)) 3 1000 (fun _ => 0)).delays) :=
  C6_retryWithBackoff_bounds_delays_lastError
    (fun n => (Except.error n : Except Nat Unit)) (fun n => n) 3 1000 (fun _ => 0)
    (by omega) (fun i => by show (0 : Nat) < 1000; omega)

/-- C6 counterexample to the unconditional strict increase of consecutive
    delays: with `baseDelay = 1`, jitter 999 ms before the first wait and
    0 ms before the second, an always-failing run waits 1000 ms and then
    only 2 ms. -/
theorem C6_delay_not_increasing_counterexample :
    (retryCounted (fun _ => (Except.error 0 : Except Nat Unit)) 3 1
      (fun n => if n = 0 then 999 else 0)).delays = [1000, 2] ∧
    ¬ List.Chain' (· < ·)
      (retryCounted (fun _ => (Except.error 0 : Except Nat Unit)) 3 1
        (fun n => if n = 0 then 999 else 0)).delays := by
  constructor
  · decide
  · intro h
    have hd : (retryCounted (fun _ => (Except.error 0 : Except Nat Unit)) 3 1
        (fun n => if n = 0 then 999 else 0)).delays = [1000, 2] := by decide
    rw [hd] at h
    exact absurd (List.chain'_cons.mp h).1 (by decide)

/-- C3 (amended): an error classified `Validation`, `NotFound` or
    `PermissionDenied` gets no auto-fix (no strategy exists for these kinds,
    so the credential refresh is never invoked) — but the retry pipeline
    does not consult the classification for retry eligibility: the backoff
    loop re-invokes the transport after such a failure just as for any
    error, up to `maxRetries` attempts with the scheduled backoff waits, and
    the error surfaces only once attempts are exhausted. -/
theorem C3_nonretryable_kinds_retried_without_autofix
    (e : JsError) (refreshOk : Nat → Bool) (maxRetries base : Nat)
    (jit : Nat → Nat) (hmr : 1 ≤ maxRetries)
    (hcls : classifyError e = .DATA_VALIDATION ∨ classifyError e = .NOT_FOUND ∨
            classifyError e = .PERMISSION_DENIED) :
    (retryWithBackoff (attemptOnce (fun _ => (.error e : Except JsError Unit)) refreshOk)
        maxRetries base jit {}).st.opCalls = maxRetries ∧
    (retryWithBackoff (attemptOnce (fun _ => (.error e : Except JsError Unit)) refreshOk)
        maxRetries base jit {}).st.refreshCalls = 0 ∧
    (retryWithBackoff (attemptOnce (fun _ => (.error e : Except JsError Unit)) refreshOk)
        maxRetries base jit {}).result = some (.error e) ∧
    (retryWithBackoff (attemptOnce (fun _ => (.error e : Except JsError Unit)) refreshOk)
        maxRetries base jit {}).delays =
      (List.range' 0 (maxRetries - 1)).map (backoffDelay base jit) := by
  have hA : classifyError e ≠ .AUTH_EXPIRED := by rcases hcls with h | h | h <;> simp [h]
  have hR : classifyError e ≠ .RATE_LIMITED := by rcases hcls with h | h | h <;> simp [h]
  have hT : classifyError e ≠ .TEMPORARY_NETWORK := by rcases hcls with h | h | h <;> simp [h]
  obtain ⟨m, rfl⟩ : ∃ m, maxRetries = m + 1 := ⟨maxRetries - 1, by omega⟩
  have hrun := retryGo_allFail (attemptOnce (fun _ => (.error e : Except JsError Unit)) refreshOk)
    incOp e base jit (fun s => attemptOnce_noStrategy e refreshOk hA hR hT s) m 0 {}
  rw [show retryWithBackoff (attemptOnce (fun _ => (.error e : Except JsError Unit)) refreshOk)
        (m + 1) base jit {} =
      retryGo (attemptOnce (fun _ => (.error e : Except JsError Unit)) refreshOk)
        base jit 0 (m + 1) {} from rfl, hrun, incOp_iterate]
  simp

/-- Witness for C3 at the concrete error `"400 invalid"` with the default
    `maxRetries = 3`, `baseDelay = 1000`. -/
theorem C3_nonretryable_kinds_retried_witness :
    (retryWithBackoff (attemptOnce
        (fun _ => (.error ⟨"400 invalid", "", "undefined"⟩ : Except JsError Unit))
        (fun _ => false)) 3 1000 (fun _ => 0) {}).st.opCalls = 3 ∧
    (retryWithBackoff (attemptOnce
        (fun _ => (.error ⟨"400 invalid", "", "undefined"⟩ : Except JsError Unit))
        (fun _ => false)) 3 1000 (fun _ => 0) {}).st.refreshCalls = 0 ∧
    (retryWithBackoff (attemptOnce
        (fun _ => (.error ⟨"400 invalid", "", "undefined"⟩ : Except JsError Unit))
        (fun _ => false)) 3 1000 (fun _ => 0) {}).result =
      some (.error ⟨"400 invalid", "", "undefined"⟩) ∧
    (retryWithBackoff (attemptOnce
        (fun _ => (.error ⟨"400 invalid", "", "undefined"⟩ : Except JsError Unit))
        (fun _ => false)) 3 1000 (fun _ => 0) {}).delays =
      (List.range' 0 2).map (backoffDelay 1000 (fun _ => 0)) :=
  C3_nonretryable_kinds_retried_without_autofix ⟨"400 invalid", "", "undefined"⟩
    (fun _ => false) 3 1000 (fun _ => 0) (by omega) (Or.inl (by decide))

/-- C3 counterexample to the claim as stated: a failure classified
    `Validation` is retried — the transport is invoked three times and two
    backoff waits occur — rather than surfacing immediately with no retry. -/
theorem C3_validation_error_retried_counterexample :
    classifyError ⟨"400 invalid", "", "undefined"⟩ = .DATA_VALIDATION ∧
    (retryWithBackoff (attemptOnce
        (fun _ => (.error ⟨"400 invalid", "", "undefined"⟩ : Except JsError Unit))
        (fun _ => false)) 3 1000 (fun _ => 0) {}).st.opCalls = 3 ∧
    (retryWithBackoff (attemptOnce
        (fun _ => (.error ⟨"400 invalid", "", "undefined"⟩ : Except JsError Unit))
        (fun _ => false)) 3 1000 (fun _ => 0) {}).delays = [1000, 2000] := by
  decide

/-- C4 (amended): within one backoff attempt the credential-refresh auto-fix
    runs at most once; when the operation fails with an `AuthExpired`-classified
    error and the refresh succeeds, the operation is retried exactly once
    within the attempt and a success carries `autoFixed = true`; when the
    refresh fails, the original error is rethrown — to the backoff loop,
    which retries the whole attempt like any failure, so over one
    `executeWithResilience` call chain the refresh may run up to `maxRetries`
    times (once per attempt), not at most once overall (see the
    counterexample). -/
theorem C4_authExpired_refresh_once_per_attempt {α : Type}
    (ops : Nat → Except JsError α) (refreshOk : Nat → Bool)
    (maxRetries base : Nat) (jit : Nat → Nat) (s : RunSt) (e : JsError) (v : α) :
    ((attemptOnce ops refreshOk s).2.refreshCalls ≤ s.refreshCalls + 1) ∧
    (ops s.opCalls = .error e → classifyError e = .AUTH_EXPIRED →
      refreshOk s.refreshCalls = true → ops (s.opCalls + 1) = .ok v →
      attemptOnce ops refreshOk s =
        (.ok (v, true), ⟨s.opCalls + 2, s.refreshCalls + 1⟩)) ∧
    (ops s.opCalls = .error e → classifyError e = .AUTH_EXPIRED →
      refreshOk s.refreshCalls = false →
      attemptOnce ops refreshOk s = (.error e, ⟨s.opCalls + 1, s.refreshCalls + 1⟩)) ∧
    ((retryWithBackoff (attemptOnce ops refreshOk) maxRetries base jit s).st.refreshCalls ≤
      s.refreshCalls + maxRetries) := by
  refine ⟨attemptOnce_refresh_le ops refreshOk s, ?_, ?_, ?_⟩
  · intro h1 hcl hr h2
    simp [attemptOnce, h1, hcl, autoFixFixed, hr, h2]
  · intro h1 hcl hr
    simp [attemptOnce, h1, hcl, autoFixFixed, hr]
  · exact retryGo_refresh_bound (attemptOnce ops refreshOk) base jit
      (attemptOnce_refresh_le ops refreshOk) maxRetries 0 s

/-- Witness for C4: a first call failing with a 401, a succeeding refresh
    and a succeeding re-run produce an `autoFixed` success with one refresh
    invocation. -/
theorem C4_authExpired_refresh_once_witness :
    attemptOnce
        (fun n => if n = 0 then (.error ⟨"401", "", "undefined"⟩ : Except JsError Unit)
                  else .ok ())
        (fun _ => true) {} = (.ok ((), true), ⟨2, 1⟩) :=
  (C4_authExpired_refresh_once_per_attempt
      (fun n => if n = 0 then (.error ⟨"401", "", "undefined"⟩ : Except JsError Unit)
                else .ok ())
      (fun _ => true) 3 1000 (fun _ => 0) {} ⟨"401", "", "undefined"⟩ ()).2.1
    (by decide) (by decide) rfl (by decide)

/-- C4 counterexample to the claim as stated: with every operation call
    failing 401-classified and every refresh failing, one
    `maxRetries = 3` call chain invokes the credential refresh three times,
    not exactly once. -/
theorem C4_refresh_invoked_thrice_counterexample :
    classifyError ⟨"401", "", "undefined"⟩ = .AUTH_EXPIRED ∧
    (retryWithBackoff (attemptOnce
        (fun _ => (.error ⟨"401", "", "undefined"⟩ : Except JsError Unit))
        (fun _ => false)) 3 1000 (fun _ => 0) {}).st.refreshCalls = 3 := by
  decide

/-- C7: `classifyError` is a total function into the closed taxonomy
    (returning exactly one kind for every signal); a signal matching exactly
    one kind's pattern — 401-style signals, 429-style, timeout and
    connection-reset, 502/503/504, 400, 404, 403 — is classified as that
    kind, and a signal matching no pattern is classified `UNKNOWN_ERROR`. -/
theorem C7_classifyError_mapping :
    (∀ (e : JsError) (t : ErrType), t ≠ .UNKNOWN_ERROR → patternTest t e = true →
      (∀ u : ErrType, u ≠ t → patternTest u e = false) → classifyError e = t) ∧
    (∀ e : JsError, (∀ u : ErrType, patternTest u e = false) →
      classifyError e = .UNKNOWN_ERROR) := by
  constructor
  · intro e t ht hpt hothers
    cases t with
    | UNKNOWN_ERROR => exact absurd rfl ht
    | AUTH_EXPIRED =>
      simp [classifyError, classifyOrder, List.find?, hpt]
    | RATE_LIMITED =>
      have h1 := hothers .AUTH_EXPIRED (by decide)
      simp [classifyError, classifyOrder, List.find?, hpt, h1]
    | TEMPORARY_NETWORK =>
      have h1 := hothers .AUTH_EXPIRED (by decide)
      have h2 := hothers .RATE_LIMITED (by decide)
      simp [classifyError, classifyOrder, List.find?, hpt, h1, h2]
    | SERVICE_DOWN =>
      have h1 := hothers .AUTH_EXPIRED (by decide)
      have h2 := hothers .RATE_LIMITED (by decide)
      have h3 := hothers .TEMPORARY_NETWORK (by decide)
      simp [classifyError, classifyOrder, List.find?, hpt, h1, h2, h3]
    | DATA_VALIDATION =>
      have h1 := hothers .AUTH_EXPIRED (by decide)
      have h2 := hothers .RATE_LIMITED (by decide)
      have h3 := hothers .TEMPORARY_NETWORK (by decide)
      have h4 := hothers .SERVICE_DOWN (by decide)
      simp [classifyError, classifyOrder, List.find?, hpt, h1, h2, h3, h4]
    | NOT_FOUND =>
      have h1 := hothers .AUTH_EXPIRED (by decide)
      have h2 := hothers .RATE_LIMITED (by decide)
      have h3 := hothers .TEMPORARY_NETWORK (by decide)
      have h4 := hothers .SERVICE_DOWN (by decide)
      have h5 := hothers .DATA_VALIDATION (by decide)
      simp [classifyError, classifyOrder, List.find?, hpt, h1, h2, h3, h4, h5]
    | PERMISSION_DENIED =>
      have h1 := hothers .AUTH_EXPIRED (by decide)
      have h2 := hothers .RATE_LIMITED (by decide)
      have h3 := hothers .TEMPORARY_NETWORK (by decide)
      have h4 := hothers .SERVICE_DOWN (by decide)
      have h5 := hothers .DATA_VALIDATION (by decide)
      have h6 := hothers .NOT_FOUND (by decide)
      simp [classifyError, classifyOrder, List.find?, hpt, h1, h2, h3, h4, h5, h6]
  · intro e h
    simp [classifyError, classifyOrder, List.find?, h .AUTH_EXPIRED, h .RATE_LIMITED,
      h .TEMPORARY_NETWORK, h .SERVICE_DOWN, h .DATA_VALIDATION, h .NOT_FOUND,
      h .PERMISSION_DENIED]

/-- Witness for C7 at three concrete signals: a 401 message, a timeout
    message, and an unmatched message. -/
theorem C7_classifyError_mapping_witness :
    classifyError ⟨"401", "", "undefined"⟩ = .AUTH_EXPIRED ∧
    classifyError ⟨"timeout of 30000ms exceeded", "", "undefined"⟩ = .TEMPORARY_NETWORK ∧
    classifyError ⟨"mystery", "", "undefined"⟩ = .UNKNOWN_ERROR :=
  ⟨C7_classifyError_mapping.1 ⟨"401", "", "undefined"⟩ .AUTH_EXPIRED
      (by decide) (by decide) (by decide),
   C7_classifyError_mapping.1 ⟨"timeout of 30000ms exceeded", "", "undefined"⟩
      .TEMPORARY_NETWORK (by decide) (by decide) (by decide),
   C7_classifyError_mapping.2 ⟨"mystery", "", "undefined"⟩ (by decide)⟩

theorem runFailures_cons {ε : Type} (cb : CircuitBreaker) (e : ε) (t : Nat)
    (ts : List Nat) :
    runFailures cb e (t :: ts) =
      ((runFailures (cb.execute t (Except.error e : Except ε Unit)).1 e ts).1,
       (cb.execute t (Except.error e : Except ε Unit)).2.2 &&
         (runFailures (cb.execute t (Except.error e : Except ε Unit)).1 e ts).2) := rfl

/-- Starting `CLOSED`, a run of consecutive failing call-throughs that
    brings the failure count up to the threshold invokes the transport every
    time and leaves the breaker `OPEN`, with the failure count at the
    threshold and the last failure time recorded. -/
theorem runFailures_opens {ε : Type} (e : ε) :
    ∀ (ts : List Nat) (fc th tmo : Nat) (lf : Option Nat),
      fc + ts.length = th → ts ≠ [] →
      (runFailures ⟨fc, th, tmo, .CLOSED, lf⟩ e ts).1 =
        ⟨th, th, tmo, .OPEN, some (lastTime ts)⟩ ∧
      (runFailures ⟨fc, th, tmo, .CLOSED, lf⟩ e ts).2 = true := by
  intro ts
  induction ts with
  | nil => intro fc th tmo lf _ hne; exact absurd rfl hne
  | cons t ts ih =>
    intro fc th tmo lf hcount _
    have hstep : (⟨fc, th, tmo, .CLOSED, lf⟩ : CircuitBreaker).execute t
        (Except.error e : Except ε Unit) =
        (⟨fc + 1, th, tmo, if th ≤ fc + 1 then .OPEN else .CLOSED, some t⟩,
         .err e, true) := by
      simp [CircuitBreaker.execute, CircuitBreaker.onFailure]
    rcases hts : ts with _ | ⟨t2, ts2⟩
    · subst hts
      have hfc : th ≤ fc + 1 := by simp at hcount; omega
      simp only [runFailures, hstep, if_pos hfc]
      have hfceq : fc + 1 = th := by simp at hcount; omega
      simp [lastTime, hfceq]
    · subst hts
      have hlt : ¬ th ≤ fc + 1 := by simp at hcount; omega
      rw [if_neg hlt] at hstep
      have ihres := ih (fc + 1) th tmo (some t) (by simp at hcount ⊢; omega) (by simp)
      rw [runFailures_cons, hstep]
      refine ⟨?_, ?_⟩
      · show (runFailures ⟨fc + 1, th, tmo, .CLOSED, some t⟩ e (t2 :: ts2)).1 =
          (⟨th, th, tmo, .OPEN, some (lastTime (t :: t2 :: ts2))⟩ : CircuitBreaker)
        rw [ihres.1]
        simp [lastTime]
      · show (true && (runFailures ⟨fc + 1, th, tmo, .CLOSED, some t⟩ e (t2 :: ts2)).2) = true
        rw [ihres.2]
        rfl

/-- C2: starting `CLOSED` with parameters `threshold` and `timeout`, after
    `threshold` consecutive failed call-throughs the breaker is `OPEN` (the
    transport having been invoked each time); every `execute` call made
    while `now - lastFailureTime` has not exceeded `timeout` throws the
    circuit-open rejection without invoking the transport and leaves the
    breaker unchanged; and the transport is invoked again exactly when
    `timeout` has elapsed since `lastFailureTime`. -/
theorem C2_circuitBreaker_opens_and_blocks (th tmo : Nat) (ts : List Nat)
    (e : JsError) (hth : 1 ≤ th) (hlen : ts.length = th) :
    (runFailures ⟨0, th, tmo, .CLOSED, none⟩ e ts).2 = true ∧
    (runFailures ⟨0, th, tmo, .CLOSED, none⟩ e ts).1 =
      ⟨th, th, tmo, .OPEN, some (lastTime ts)⟩ ∧
    (∀ (now : Nat) (fn : Except JsError Unit), now - lastTime ts ≤ tmo →
      (runFailures ⟨0, th, tmo, .CLOSED, none⟩ e ts).1.execute now fn =
        ((runFailures ⟨0, th, tmo, .CLOSED, none⟩ e ts).1, .circuitOpen, false)) ∧
    (∀ (now : Nat) (fn : Except JsError Unit), tmo < now - lastTime ts →
      ((runFailures ⟨0, th, tmo, .CLOSED, none⟩ e ts).1.execute now fn).2.2 = true) := by
  have hne : ts ≠ [] := by intro h; subst h; simp at hlen; omega
  have hrun := runFailures_opens e ts 0 th tmo none (by simpa using hlen) hne
  refine ⟨hrun.2, hrun.1, ?_, ?_⟩
  · intro now fn hle
    rw [hrun.1]
    simp [CircuitBreaker.execute, Nat.not_lt.mpr hle]
  · intro now fn hgt
    rw [hrun.1]
    cases fn <;> simp [CircuitBreaker.execute, hgt]

/-- Witness for C2: threshold 2, timeout 100, failures at times 5 and 10;
    a call at time 50 is rejected without transport invocation, a call at
    time 200 reaches the transport. -/
theorem C2_circuitBreaker_opens_witness :
    (runFailures ⟨0, 2, 100, .CLOSED, none⟩ (⟨"boom", "", "undefined"⟩ : JsError)
      [5, 10]).2 = true ∧
    (runFailures ⟨0, 2, 100, .CLOSED, none⟩ (⟨"boom", "", "undefined"⟩ : JsError)
      [5, 10]).1 = ⟨2, 2, 100, .OPEN, some 10⟩ ∧
    (runFailures ⟨0, 2, 100, .CLOSED, none⟩ (⟨"boom", "", "undefined"⟩ : JsError)
        [5, 10]).1.execute 50 (.ok () : Except JsError Unit) =
      ((runFailures ⟨0, 2, 100, .CLOSED, none⟩ (⟨"boom", "", "undefined"⟩ : JsError)
        [5, 10]).1, .circuitOpen, false) ∧
    ((runFailures ⟨0, 2, 100, .CLOSED, none⟩ (⟨"boom", "", "undefined"⟩ : JsError)
        [5, 10]).1.execute 200 (.ok () : Except JsError Unit)).2.2 = true :=
  ⟨(C2_circuitBreaker_opens_and_blocks 2 100 [5, 10] ⟨"boom", "", "undefined"⟩
      (by omega) (by decide)).1,
   (C2_circuitBreaker_opens_and_blocks 2 100 [5, 10] ⟨"boom", "", "undefined"⟩
      (by omega) (by decide)).2.1,
   (C2_circuitBreaker_opens_and_blocks 2 100 [5, 10] ⟨"boom", "", "undefined"⟩
      (by omega) (by decide)).2.2.1 50 (.ok ()) (by decide),
   (C2_circuitBreaker_opens_and_blocks 2 100 [5, 10] ⟨"boom", "", "undefined"⟩
      (by omega) (by decide)).2.2.2 200 (.ok ()) (by decide)⟩

/-- A tag membership yields a positive filter count in the exclusive
    collection check. -/
theorem filter_contains_pos (l tags : List String) (t : String)
    (h1 : t ∈ l) (h2 : t ∈ tags) :
    0 < (l.filter (fun x => tags.contains x)).length := by
  have hmem : t ∈ l.filter (fun x => tags.contains x) := by
    rw [List.mem_filter]
    exact ⟨h1, by simpa using h2⟩
  exact List.length_pos_of_mem hmem

/-- If some exclusive collection has a member among the current tags and a
    member among the tags being added, validation throws. -/
theorem validateExclusive_conflict (exclusives : List TagCollection)
    (currentTags newTags : List String) (c : TagCollection) (hc : c ∈ exclusives)
    (hcur : ∃ t ∈ currentTags, t ∈ c.tags) (hnew : ∃ t ∈ newTags, t ∈ c.tags) :
    ∃ msg, validateExclusiveCollections exclusives currentTags newTags =
      .error msg := by
  induction exclusives with
  | nil => cases hc
  | cons c0 rest ih =>
    by_cases h0 : 0 < (newTags.filter (fun t => c0.tags.contains t)).length
    · by_cases h1 : 0 < (currentTags.filter (fun t => c0.tags.contains t)).length
      · exact ⟨"Cannot add multiple tags from exclusive collection: " ++ c0.name,
          by simp only [validateExclusiveCollections]; rw [if_pos h0, if_pos h1]⟩
      · by_cases h2 : 1 < (newTags.filter (fun t => c0.tags.contains t)).length
        · exact ⟨"Can only select one tag from exclusive collection: " ++ c0.name,
            by simp only [validateExclusiveCollections]
               rw [if_pos h0, if_neg h1, if_pos h2]⟩
        · rcases List.mem_cons.mp hc with hceq | hcrest
          · subst hceq
            obtain ⟨t, ht1, ht2⟩ := hcur
            exact absurd (filter_contains_pos currentTags c.tags t ht1 ht2) h1
          · obtain ⟨msg, hmsg⟩ := ih hcrest
            refine ⟨msg, ?_⟩
            simp only [validateExclusiveCollections]
            rw [if_pos h0, if_neg h1, if_neg h2]
            exact hmsg
    · rcases List.mem_cons.mp hc with hceq | hcrest
      · subst hceq
        obtain ⟨t, ht1, ht2⟩ := hnew
        exact absurd (filter_contains_pos newTags c.tags t ht1 ht2) h0
      · obtain ⟨msg, hmsg⟩ := ih hcrest
        refine ⟨msg, ?_⟩
        simp only [validateExclusiveCollections]
        rw [if_neg h0]
        exact hmsg

/-- C1 (amended): applying a tag of an exclusive collection to an entity
    already carrying a tag of that same collection does not swap — the
    operation fails: `validateExclusiveCollections` throws the
    multiple-tags error and `applyTags` propagates it, leaving the entity
    unchanged.  Moreover `applyTags` never removes a tag: a successful call
    only appends the not-yet-present tag ids, so the old tag would survive
    any successful application.  A swap requires a separate `removeTags`
    call first. -/
theorem C1_applyTags_exclusive_rejects_not_swaps :
    (∀ (entityType : String) (exclusives : List TagCollection)
       (entityTags tagIds : List String) (c : TagCollection),
       c ∈ exclusives → (∃ t ∈ entityTags, t ∈ c.tags) →
       (∃ t ∈ tagIds, t ∈ c.tags) →
       ∃ msg, applyTags entityType true true exclusives entityTags tagIds =
         .error msg) ∧
    (∀ (entityType : String) (ef tf : Bool) (exclusives : List TagCollection)
       (entityTags tagIds res : List String),
       applyTags entityType ef tf exclusives entityTags tagIds = .ok res →
       entityTags <+: res) := by
  constructor
  · intro entityType exclusives entityTags tagIds c hc hcur hnew
    obtain ⟨msg, hmsg⟩ :=
      validateExclusive_conflict exclusives entityTags tagIds c hc hcur hnew
    exact ⟨msg, by simp [applyTags, hmsg]⟩
  · intro entityType ef tf exclusives entityTags tagIds res h
    cases ef with
    | false => simp [applyTags] at h
    | true =>
      cases tf with
      | false => simp [applyTags] at h
      | true =>
        rcases hval : validateExclusiveCollections exclusives entityTags tagIds with
          m | u
        · rw [applyTags] at h
          simp [hval] at h
        · rw [applyTags] at h
          simp only [hval, Bool.not_true, Bool.false_eq_true, if_false] at h
          have hres : entityTags ++
              tagIds.filter (fun tagId => ! entityTags.any (fun t => t == tagId)) =
              res := by
            simpa using h
          rw [← hres]
          exact List.prefix_append _ _

/-- Witness for C1 at the spec's own example: entity tagged `urgent`,
    applying `high-priority` from the exclusive collection
    `{urgent, high-priority, standard}` fails; and a successful application
    (no exclusive conflict) keeps existing tags as a prefix. -/
theorem C1_applyTags_exclusive_rejects_witness :
    (∃ msg, applyTags "order" true true
      [⟨"Priority Level", ["urgent", "high-priority", "standard"]⟩]
      ["urgent"] ["high-priority"] = .error msg) ∧
    ["vip"] <+: ["vip", "express"] :=
  ⟨C1_applyTags_exclusive_rejects_not_swaps.1 "order"
      [⟨"Priority Level", ["urgent", "high-priority", "standard"]⟩]
      ["urgent"] ["high-priority"]
      ⟨"Priority Level", ["urgent", "high-priority", "standard"]⟩
      (by decide) ⟨"urgent", by decide, by decide⟩
      ⟨"high-priority", by decide, by decide⟩,
   C1_applyTags_exclusive_rejects_not_swaps.2 "order" true true []
      ["vip"] ["express"] ["vip", "express"] (by decide)⟩

/-- C1 counterexample: at the spec's example — entity bearing `urgent`,
    applying `high-priority`, both in the exclusive collection
    `{urgent, high-priority, standard}` — `applyTags` throws instead of
    swapping, so the result is not a tag list containing `high-priority`
    and not `urgent`. -/
theorem C1_applyTags_exclusive_swap_counterexample :
    applyTags "order" true true
      [⟨"Priority Level", ["urgent", "high-priority", "standard"]⟩]
      ["urgent"] ["high-priority"] =
      .error "Cannot add multiple tags from exclusive collection: Priority Level" := by
  decide

/-- C5: evaluation of the rate limiter at a failing trace —
    `requestsPerMinute = 1`, sequential arrivals at 0 ms, 1 ms and 60001 ms.
    The second call blocks until 60000 ms but records its pre-wait arrival
    time 1, so the third call at 60001 ms sees an empty window and is
    admitted immediately: the admissions at 60000 and 60001 fall inside one
    60-second window, exceeding N = 1. -/
theorem C5_rateLimiter_window_violation :
    (runRateLimiter 1 [0, 1, 60001]).2 = [0, 60000, 60001] ∧
    ((runRateLimiter 1 [0, 1, 60001]).2.filter
      (fun t => decide (60000 ≤ t) && decide (t < 120000))).length = 2 := by
  decide

/-- C9 counterexample: with a `timeRange` hour window 09:00–17:00, the same
    snapshot and the same conditions evaluate to `false` at 8 hours and to
    `true` at 10 hours — the result depends on the wall clock, not only on
    snapshot and conditions. -/
theorem C9_evaluateConditions_time_dependent_counterexample :
    evaluateConditions
      { conditions := some { timeRange := some { hours := some ⟨"09:00", "17:00"⟩ } } }
      {} ⟨1, 8⟩ = false ∧
    evaluateConditions
      { conditions := some { timeRange := some { hours := some ⟨"09:00", "17:00"⟩ } } }
      {} ⟨1, 10⟩ = true := by
  decide

/-- C9 (amended): condition evaluation is a pure function of the snapshot,
    the conditions and the wall-clock reading — in the embedding it mutates
    nothing — and whenever the rule has no `timeRange` condition the result
    is independent of the clock, so repeated calls with an unchanged
    snapshot and conditions agree; with a `timeRange` condition the result
    additionally depends on the evaluation-time clock (see the
    counterexample). -/
theorem C9_evaluateConditions_deterministic (r : Rule) (order : OrderSnapshot)
    (c1 c2 : Clock)
    (h : ∀ conds, r.conditions = some conds → conds.timeRange = none) :
    evaluateConditions r order c1 = evaluateConditions r order c2 := by
  rcases hc : r.conditions with _ | conds
  · simp [evaluateConditions, hc]
  · have ht := h conds hc
    simp [evaluateConditions, hc, ht]

/-- Witness for C9 at a rule with empty conditions and two different
    clocks. -/
theorem C9_evaluateConditions_deterministic_witness :
    evaluateConditions { conditions := some {} } {} ⟨0, 0⟩ =
      evaluateConditions { conditions := some {} } {} ⟨6, 23⟩ :=
  C9_evaluateConditions_deterministic { conditions := some {} } {} ⟨0, 0⟩ ⟨6, 23⟩
    (by intro conds hc; cases hc; rfl)

theorem drop_append_small {α : Type} (l1 l2 : List α) (n : Nat)
    (h : n ≤ l1.length) : (l1 ++ l2).drop n = l1.drop n ++ l2 := by
  induction l1 generalizing n with
  | nil => simp at h; subst h; simp
  | cons a l ih =>
    cases n with
    | zero => simp
    | succ n => simpa using ih n (by simpa using h)

/-- The record appended by `recordExecution` survives the 100-entry cap. -/
theorem recordExecution_mem (r : Rule) (orderId : String) (success : Bool)
    (duration : Nat) (error : Option String) (acts : List String) (now : Nat) :
    ({ orderId := orderId, executedAt := now, success := success,
       duration := duration, error := error, actionsPerformed := acts } : ExecRecord) ∈
      (recordExecution r orderId success duration error acts now).history := by
  show _ ∈ ((r.history ++ [_]).drop ((r.history ++ [_]).length - 100))
  rw [drop_append_small _ _ _ (by simp only [List.length_append, List.length_singleton]; omega)]
  exact List.mem_append_right _ (List.mem_singleton.mpr rfl)

/-- `recordExecution` does not touch the rule's limits. -/
theorem recordExecution_limits (r : Rule) (orderId : String) (success : Bool)
    (duration : Nat) (error : Option String) (acts : List String) (now : Nat) :
    (recordExecution r orderId success duration error acts now).limits = r.limits :=
  rfl

/-- Midnight precedes every instant of its day. -/
theorem startOfDay_le (now : Nat) : startOfDay now ≤ now := Nat.sub_le _ _

/-- C8: for a rule with `limits.maxPerDay = 1` whose gate and conditions
    pass at the first trigger, the engine executes the actions once and
    records one (successful) execution; at a second trigger on the same
    calendar day the `canExecute` gate returns `false` and the engine step
    returns the rule unchanged — no execution and no failed record is
    added to stats or history. -/
theorem C8_maxPerDay_second_trigger_skipped
    (r : Rule) (order : OrderSnapshot) (c1 c2 : Clock) (now1 now2 : Nat)
    (dur : Nat) (acts : List String)
    (hday : r.limits.maxPerDay = some 1)
    (hsameday : startOfDay now1 = startOfDay now2)
    (hgate : canExecute r order.id now1 = true)
    (hconds : evaluateConditions r order c1 = true) :
    (ruleEngineStep r order c1 now1 true dur none acts).2 = true ∧
    (ruleEngineStep r order c1 now1 true dur none acts).1 =
      recordExecution r order.id true dur none acts now1 ∧
    canExecute (ruleEngineStep r order c1 now1 true dur none acts).1
      order.id now2 = false ∧
    ruleEngineStep (ruleEngineStep r order c1 now1 true dur none acts).1
      order c2 now2 true dur none acts =
      ((ruleEngineStep r order c1 now1 true dur none acts).1, false) := by
  have hstep1 : ruleEngineStep r order c1 now1 true dur none acts =
      (recordExecution r order.id true dur none acts now1, true) := by
    simp [ruleEngineStep, hgate, hconds]
  have hcount : 1 ≤ ((recordExecution r order.id true dur none acts now1).history.filter
      (fun h => decide (startOfDay now2 ≤ h.executedAt) && h.success)).length := by
    apply List.length_pos_of_mem
    rw [List.mem_filter]
    refine ⟨recordExecution_mem r order.id true dur none acts now1, ?_⟩
    have : startOfDay now2 ≤ now1 := by
      rw [← hsameday]; exact startOfDay_le now1
    simp [this]
  have hfalse : canExecute (recordExecution r order.id true dur none acts now1)
      order.id now2 = false := by
    unfold canExecute
    split_ifs with h1 h2 h3 h4 h5 <;> try rfl
    exfalso
    apply h3
    rw [recordExecution_limits, hday]
    simp [natTruthy, hcount]
  refine ⟨by rw [hstep1], by rw [hstep1], by rw [hstep1]; exact hfalse, ?_⟩
  rw [hstep1]
  simp [ruleEngineStep, hfalse]

/-- Witness for C8: a fresh enabled rule with `maxPerDay = 1` triggered at
    1000 ms and again at 2000 ms of the same day executes once and skips
    the second trigger with nothing recorded. -/
theorem C8_maxPerDay_second_trigger_skipped_witness :
    (ruleEngineStep { enabled := true, limits := { maxPerDay := some 1 } }
      {} ⟨0, 0⟩ 1000 true 5 none []).2 = true ∧
    (ruleEngineStep { enabled := true, limits := { maxPerDay := some 1 } }
      {} ⟨0, 0⟩ 1000 true 5 none []).1 =
      recordExecution { enabled := true, limits := { maxPerDay := some 1 } }
        "" true 5 none [] 1000 ∧
    canExecute (ruleEngineStep { enabled := true, limits := { maxPerDay := some 1 } }
      {} ⟨0, 0⟩ 1000 true 5 none []).1 "" 2000 = false ∧
    ruleEngineStep (ruleEngineStep { enabled := true, limits := { maxPerDay := some 1 } }
        {} ⟨0, 0⟩ 1000 true 5 none []).1 {} ⟨0, 1⟩ 2000 true 5 none [] =
      ((ruleEngineStep { enabled := true, limits := { maxPerDay := some 1 } }
        {} ⟨0, 0⟩ 1000 true 5 none []).1, false) :=
  C8_maxPerDay_second_trigger_skipped
    { enabled := true, limits := { maxPerDay := some 1 } } {} ⟨0, 0⟩ ⟨0, 1⟩
    1000 2000 5 [] rfl (by decide) (by decide) (by decide)

/-- C10: with an existing client, the resilient wrapper never propagates an
    exception: for every operation, refresh behaviour, retry configuration
    and timing, it returns a result object — failures (including the
    circuit-open rejection and the exhausted-retry error) are encoded as
    `success = false` together with the classified error type and the
    user-facing message derived from it and the call's duration, successes
    as `success = true` with the data, no error, and the `autoFixed` flag in
    the metadata. -/
theorem C10_executeWithResilience_total_result {α : Type} (cb : CircuitBreaker)
    (ops : Nat → Except JsError α) (refreshOk : Nat → Bool)
    (maxRetries baseDelay : Nat) (jit : Nat → Nat) (t0 t1 : Nat) :
    ∃ cb2 res st,
      executeWithResilience true cb ops refreshOk maxRetries baseDelay jit t0 t1 =
        .ok (cb2, res, st) ∧
      res.metadata.duration = t1 - t0 ∧
      (res.success = false → ∃ e : JsError, res = execFailure e (t1 - t0) ∧
        res.error = some ⟨e.message, classifyError e,
          getUserFriendlyError (classifyError e)⟩) ∧
      (res.success = true → res.error = none) := by
  unfold executeWithResilience
  simp only [Bool.not_true, Bool.false_eq_true, if_false]
  rcases hstep : cb.execute t0
      (retryOutcome (retryWithBackoff (attemptOnce ops refreshOk)
        maxRetries baseDelay jit {})) with ⟨cb2, out, inv⟩
  cases out with
  | circuitOpen =>
    refine ⟨cb2, execFailure circuitOpenError (t1 - t0), {}, ?_, rfl, ?_, ?_⟩
    · simp [hstep]
    · intro _
      exact ⟨circuitOpenError, rfl, rfl⟩
    · intro h
      simp [execFailure] at h
  | ok d =>
    refine ⟨cb2,
      { success := true, data := d.map Prod.fst,
        metadata := { duration := t1 - t0,
                      autoFixed := (d.map Prod.snd).getD false } },
      (retryWithBackoff (attemptOnce ops refreshOk) maxRetries baseDelay jit {}).st,
      ?_, rfl, ?_, ?_⟩
    · simp [hstep]
    · intro h
      simp at h
    · intro _
      rfl
  | err e =>
    refine ⟨cb2, execFailure e (t1 - t0),
      (retryWithBackoff (attemptOnce ops refreshOk) maxRetries baseDelay jit {}).st,
      ?_, rfl, ?_, ?_⟩
    · simp [hstep]
    · intro _
      exact ⟨e, rfl, rfl⟩
    · intro h
      simp [execFailure] at h

/-- Witness for C10: a concrete always-failing validation-classified
    operation yields a returned (not thrown) failure result object. -/
theorem C10_executeWithResilience_total_witness :
    ∃ cb2 res st,
      executeWithResilience true {}
        (fun _ => (.error ⟨"400 invalid", "", "undefined"⟩ : Except JsError Unit))
        (fun _ => false) 3 1000 (fun _ => 0) 10 60 = .ok (cb2, res, st) ∧
      res.metadata.duration = 60 - 10 ∧
      (res.success = false → ∃ e : JsError, res = execFailure e (60 - 10) ∧
        res.error = some ⟨e.message, classifyError e,
          getUserFriendlyError (classifyError e)⟩) ∧
      (res.success = true → res.error = none) :=
  C10_executeWithResilience_total_result {}
    (fun _ => (.error ⟨"400 invalid", "", "undefined"⟩ : Except JsError Unit))
    (fun _ => false) 3 1000 (fun _ => 0) 10 60
